import Mathlib

/-
Verification of `google/cloud/documentai_toolbox/utilities/utilities.py`:
the batch builder `create_batches` and the lookup
`document_type_to_processor_type`.

Modelling notes.
* A storage object (`blob`) is its `name`, `content_type` and `size`.
* The configuration constants of the `constants` module
  (`BATCH_MAX_FILES`, `BATCH_MAX_FILE_SIZE`, `VALID_MIME_TYPES`) are kept
  abstract in a `Constants` record, since the claims quantify over the
  configured values.
* The storage listing collaborator is a function from the bucket name and
  the object-name filter (the source's second, `gcs_`-named string
  argument) to the sequence of blobs it yields, together with an optional
  failure raised while the returned iterator is being consumed
  (`BlobListing.failure`).  Python's `str.endswith("/")` on a blob name is
  the test that the last character is `'/'` (`endsWithSlash`).
* `create_batches` returns, besides its result (`Except`: `ValueError`,
  a propagated listing failure, or the list of
  `BatchDocumentsInputConfig`), the trace of listing calls it issued, so
  that "no I/O before validation" is a statement about the model.
-/

namespace DocumentaiToolbox

/-- Storage object metadata as yielded by the storage listing collaborator
(`blob.name`, `blob.content_type`, `blob.size` in the source). -/
structure Blob where
  name : String
  content_type : String
  size : Nat
deriving DecidableEq

/-- Mirrors `documentai.GcsDocument` as constructed by `create_batches`. -/
structure GcsDocument where
  gcs_uri : String
  mime_type : String
deriving DecidableEq

/-- Mirrors `documentai.GcsDocuments`. -/
structure GcsDocuments where
  documents : List GcsDocument
deriving DecidableEq

/-- Mirrors `documentai.BatchDocumentsInputConfig`. -/
structure BatchDocumentsInputConfig where
  gcs_documents : GcsDocuments
deriving DecidableEq

/-- Configuration constants of the `constants` module used by
`create_batches`. -/
structure Constants where
  BATCH_MAX_FILES : Nat
  BATCH_MAX_FILE_SIZE : Nat
  VALID_MIME_TYPES : List String

/-- Outcome of one `list_blobs` call: the blobs the returned iterator
yields, and an optional failure it raises while being consumed (after
yielding `blobs`). -/
structure BlobListing (ε : Type) where
  blobs : List Blob
  failure : Option ε

/-- Errors out of `create_batches`: the `ValueError` raised by the
batch-size validation, or a failure propagated unchanged from the listing
collaborator. -/
inductive BatchError (ε : Type) where
  | valueError (msg : String)
  | listingFailure (e : ε)
deriving DecidableEq

/-- Python's `blob.name.endswith("/")`: the last character is `'/'`. -/
def endsWithSlash (s : String) : Bool :=
  s.data.getLast? == some '/'

/-- The message of the `ValueError` raised when `batch_size` exceeds
`BATCH_MAX_FILES`. -/
def batchSizeErrorMsg (c : Constants) (batch_size : Nat) : String :=
  "Batch size must be less than " ++ toString c.BATCH_MAX_FILES ++
    ". You provided " ++ toString batch_size ++ "."

/-- The `documentai.GcsDocument` built for an accepted blob:
`gcs_uri=f"gs://{gcs_bucket_name}/{blob.name}"`,
`mime_type=blob.content_type`. -/
def mkGcsDocument (gcs_bucket_name : String) (blob : Blob) : GcsDocument :=
  { gcs_uri := "gs://" ++ gcs_bucket_name ++ "/" ++ blob.name
    mime_type := blob.content_type }

/-- Wraps a finished batch as in
`BatchDocumentsInputConfig(gcs_documents=GcsDocuments(documents=batch))`. -/
def sealBatch (batch : List GcsDocument) : BatchDocumentsInputConfig :=
  { gcs_documents := { documents := batch } }

/-- One iteration of the `for blob in blob_list` loop of `create_batches`.
The state is the pair `(batches, batch)` of the source.  The three `skip`
filters are applied in source order; then, if the in-progress batch has
reached `batch_size`, it is sealed before the new document is appended. -/
def step (c : Constants) (gcs_bucket_name : String) (batch_size : Nat)
    (st : List BatchDocumentsInputConfig × List GcsDocument) (blob : Blob) :
    List BatchDocumentsInputConfig × List GcsDocument :=
  if endsWithSlash blob.name then st
  else if !(c.VALID_MIME_TYPES.contains blob.content_type) then st
  else if blob.size > c.BATCH_MAX_FILE_SIZE then st
  else
    let st1 :=
      if st.2.length == batch_size then
        (st.1 ++ [sealBatch st.2], ([] : List GcsDocument))
      else st
    (st1.1, st1.2 ++ [mkGcsDocument gcs_bucket_name blob])

/-- The `if batch != []` epilogue of `create_batches`: seal and append the
last, possibly short batch. -/
def finalizeBatches
    (st : List BatchDocumentsInputConfig × List GcsDocument) :
    List BatchDocumentsInputConfig :=
  if st.2 ≠ [] then st.1 ++ [sealBatch st.2] else st.1

/-- Shallow embedding of `create_batches`.  The first component is the
returned value (or the raised error); the second is the trace of
`(bucket, filter)` arguments of the listing calls issued. -/
def create_batches {ε : Type} (c : Constants)
    (list_blobs : String → String → BlobListing ε)
    (gcs_bucket_name gcs_path : String) (batch_size : Nat) :
    (Except (BatchError ε) (List BatchDocumentsInputConfig)) ×
      List (String × String) :=
  if batch_size > c.BATCH_MAX_FILES then
    (Except.error (BatchError.valueError (batchSizeErrorMsg c batch_size)), [])
  else
    let listing := list_blobs gcs_bucket_name gcs_path
    match listing.failure with
    | some e => (Except.error (BatchError.listingFailure e),
        [(gcs_bucket_name, gcs_path)])
    | none =>
        (Except.ok (finalizeBatches
          (listing.blobs.foldl (step c gcs_bucket_name batch_size) ([], []))),
         [(gcs_bucket_name, gcs_path)])

/-- A blob passes all three filters of the loop (not a directory
placeholder, allowed MIME type, size within the limit). -/
def eligible (c : Constants) (blob : Blob) : Bool :=
  !endsWithSlash blob.name &&
    c.VALID_MIME_TYPES.contains blob.content_type &&
    !(decide (blob.size > c.BATCH_MAX_FILE_SIZE))

/-- The pure batching pipeline on an already-listed sequence of blobs:
the loop of `create_batches` followed by its epilogue. -/
def processBlobs (c : Constants) (gcs_bucket_name : String)
    (batch_size : Nat) (blobs : List Blob) : List BatchDocumentsInputConfig :=
  finalizeBatches (blobs.foldl (step c gcs_bucket_name batch_size) ([], []))

/-- The loop body restricted to accepted documents (filters already
applied). -/
def chunkStep (batch_size : Nat)
    (st : List BatchDocumentsInputConfig × List GcsDocument)
    (d : GcsDocument) :
    List BatchDocumentsInputConfig × List GcsDocument :=
  let st1 :=
    if st.2.length == batch_size then
      (st.1 ++ [sealBatch st.2], ([] : List GcsDocument))
    else st
  (st1.1, st1.2 ++ [d])

/-- Recursive form of the chunking performed by the loop: from an
in-progress chunk `cur` and the remaining items, produce the sealed
chunks and the final in-progress chunk. -/
def chunkAcc {α : Type} (batch_size : Nat) :
    List α → List α → List (List α) × List α
  | cur, [] => ([], cur)
  | cur, x :: xs =>
    if cur.length == batch_size then
      ((cur :: (chunkAcc batch_size [x] xs).1), (chunkAcc batch_size [x] xs).2)
    else chunkAcc batch_size (cur ++ [x]) xs


/-- The static `document_map` table of `document_type_to_processor_type`,
entry for entry in source order (the Python dict literal has no duplicate
keys, so association-list lookup agrees with dict lookup). -/
def document_map : List (String × String) := [
  ("air_travel_statement", "EXPENSE_PROCESSOR"),
  ("car_rental_statement", "EXPENSE_PROCESSOR"),
  ("credit_card_slip", "EXPENSE_PROCESSOR"),
  ("credit_note", "INVOICE_PROCESSOR"),
  ("debit_note", "INVOICE_PROCESSOR"),
  ("ground_transportation_statement", "EXPENSE_PROCESSOR"),
  ("hotel_statement", "EXPENSE_PROCESSOR"),
  ("invoice_statement", "INVOICE_PROCESSOR"),
  ("purchase_order", "PURCHASE_ORDER_PROCESSOR"),
  ("receipt_statement", "EXPENSE_PROCESSOR"),
  ("restaurant_statement", "EXPENSE_PROCESSOR"),
  ("utility_statement", "UTILITY_PROCESSOR"),
  ("1003", "FORM_1003_PROCESSOR"),
  ("1003_2009", "FORM_1003_PROCESSOR"),
  ("1005_1996", "FORM_1005_PROCESSOR"),
  ("1040", "FORM_1040_PROCESSOR"),
  ("1040_2018", "FORM_1040_PROCESSOR"),
  ("1040_2019", "FORM_1040_PROCESSOR"),
  ("1040_2020", "FORM_1040_PROCESSOR"),
  ("1040_2021", "FORM_1040_PROCESSOR"),
  ("1040nr", "FORM_1040NR_PROCESSOR"),
  ("1040nr_2018", "FORM_1040NR_PROCESSOR"),
  ("1040nr_2019", "FORM_1040NR_PROCESSOR"),
  ("1040nr_2020", "FORM_1040NR_PROCESSOR"),
  ("1040nr_2021", "FORM_1040NR_PROCESSOR"),
  ("1040sc", "FORM_1040SCH_C_PROCESSOR"),
  ("1040sc_2018", "FORM_1040SCH_C_PROCESSOR"),
  ("1040sc_2019", "FORM_1040SCH_C_PROCESSOR"),
  ("1040sc_2020", "FORM_1040SCH_C_PROCESSOR"),
  ("1040sc_2021", "FORM_1040SCH_C_PROCESSOR"),
  ("1040sr", "FORM_1040SR_PROCESSOR"),
  ("1040sr_2018", "FORM_1040SR_PROCESSOR"),
  ("1040sr_2019", "FORM_1040SR_PROCESSOR"),
  ("1040sr_2020", "FORM_1040SR_PROCESSOR"),
  ("1040sr_2021", "FORM_1040SR_PROCESSOR"),
  ("1065", "FORM_1065_PROCESSOR"),
  ("1065_2018", "FORM_1065_PROCESSOR"),
  ("1065_2019", "FORM_1065_PROCESSOR"),
  ("1065_2020", "FORM_1065_PROCESSOR"),
  ("1065_2021", "FORM_1065_PROCESSOR"),
  ("1076_2016", "FORM_1076_PROCESSOR"),
  ("1099div", "FORM_1099DIV_PROCESSOR"),
  ("1099div_2018", "FORM_1099DIV_PROCESSOR"),
  ("1099div_2019", "FORM_1099DIV_PROCESSOR"),
  ("1099div_2020", "FORM_1099DIV_PROCESSOR"),
  ("1099div_2021", "FORM_1099DIV_PROCESSOR"),
  ("1099g", "FORM_1099G_PROCESSOR"),
  ("1099g_2018", "FORM_1099G_PROCESSOR"),
  ("1099g_2019", "FORM_1099G_PROCESSOR"),
  ("1099g_2020", "FORM_1099G_PROCESSOR"),
  ("1099g_2021", "FORM_1099G_PROCESSOR"),
  ("1099int", "FORM_1099INT_PROCESSOR"),
  ("1099int_2018", "FORM_1099INT_PROCESSOR"),
  ("1099int_2019", "FORM_1099INT_PROCESSOR"),
  ("1099int_2020", "FORM_1099INT_PROCESSOR"),
  ("1099int_2021", "FORM_1099INT_PROCESSOR"),
  ("1099misc", "FORM_1099MISC_PROCESSOR"),
  ("1099misc_2018", "FORM_1099MISC_PROCESSOR"),
  ("1099misc_2019", "FORM_1099MISC_PROCESSOR"),
  ("1099misc_2020", "FORM_1099MISC_PROCESSOR"),
  ("1099misc_2021", "FORM_1099MISC_PROCESSOR"),
  ("1099nec", "FORM_1099NEC_PROCESSOR"),
  ("1099nec_2018", "FORM_1099NEC_PROCESSOR"),
  ("1099nec_2019", "FORM_1099NEC_PROCESSOR"),
  ("1099nec_2020", "FORM_1099NEC_PROCESSOR"),
  ("1099nec_2021", "FORM_1099NEC_PROCESSOR"),
  ("1099r", "FORM_1099R_PROCESSOR"),
  ("1099r_2018", "FORM_1099R_PROCESSOR"),
  ("1099r_2019", "FORM_1099R_PROCESSOR"),
  ("1099r_2020", "FORM_1099R_PROCESSOR"),
  ("1099r_2021", "FORM_1099R_PROCESSOR"),
  ("1099sb", "FORM_1040SCH_B_PROCESSOR"),
  ("1099sb_2018", "FORM_1040SCH_B_PROCESSOR"),
  ("1099sb_2019", "FORM_1040SCH_B_PROCESSOR"),
  ("1099sb_2020", "FORM_1040SCH_B_PROCESSOR"),
  ("1099sb_2021", "FORM_1040SCH_B_PROCESSOR"),
  ("1099sd", "FORM_1040SCH_D_PROCESSOR"),
  ("1099sd_2018", "FORM_1040SCH_D_PROCESSOR"),
  ("1099sd_2019", "FORM_1040SCH_D_PROCESSOR"),
  ("1099sd_2020", "FORM_1040SCH_D_PROCESSOR"),
  ("1099sd_2021", "FORM_1040SCH_D_PROCESSOR"),
  ("1099se", "FORM_1040SCH_E_PROCESSOR"),
  ("1099se_2018", "FORM_1040SCH_E_PROCESSOR"),
  ("1099se_2019", "FORM_1040SCH_E_PROCESSOR"),
  ("1099se_2020", "FORM_1040SCH_E_PROCESSOR"),
  ("1099se_2021", "FORM_1040SCH_E_PROCESSOR"),
  ("1099ssa", "FORM_SSA1099_PROCESSOR"),
  ("1099ssa_2018", "FORM_SSA1099_PROCESSOR"),
  ("1099ssa_2019", "FORM_SSA1099_PROCESSOR"),
  ("1099ssa_2020", "FORM_SSA1099_PROCESSOR"),
  ("1099ssa_2021", "FORM_SSA1099_PROCESSOR"),
  ("1120", "FORM_1120_PROCESSOR"),
  ("1120_2018", "FORM_1120_PROCESSOR"),
  ("1120_2019", "FORM_1120_PROCESSOR"),
  ("1120_2020", "FORM_1120_PROCESSOR"),
  ("1120_2021", "FORM_1120_PROCESSOR"),
  ("1120s", "FORM_1120S_PROCESSOR"),
  ("1120s_2018", "FORM_1120S_PROCESSOR"),
  ("1120s_2019", "FORM_1120S_PROCESSOR"),
  ("1120s_2020", "FORM_1120S_PROCESSOR"),
  ("1120s_2021", "FORM_1120S_PROCESSOR"),
  ("1_4_Family_Rider_3170", "FORM_FAMILY_RIDER_PROCESSOR"),
  ("3108_Adjustable_Rate_Rider", "FORM_ADJUSTABLE_RIDER_PROCESSOR"),
  ("3140_Condominium_Rider", "FORM_CONDOMINIUM_RIDER_PROCESSOR"),
  ("3190_Balloon_Rider", "FORM_BALLOON_RIDER_PROCESSOR"),
  ("3890_Second_Home_Rider", "FORM_SECOND_HOME_RIDER_PROCESSOR"),
  ("4506_T", "FORM_4506T_PROCESSOR"),
  ("4506_T_2018", "FORM_4506T_PROCESSOR"),
  ("4506_T_2019", "FORM_4506T_PROCESSOR"),
  ("4506_T_2020", "FORM_4506T_PROCESSOR"),
  ("4506_T_2021", "FORM_4506T_PROCESSOR"),
  ("4506_T_EZ", "FORM_4506T_EZ_PROCESSOR"),
  ("4506_T_EZ_2018", "FORM_4506T_EZ_PROCESSOR"),
  ("4506_T_EZ_2019", "FORM_4506T_EZ_PROCESSOR"),
  ("4506_T_EZ_2020", "FORM_4506T_EZ_PROCESSOR"),
  ("4506_T_EZ_2021", "FORM_4506T_EZ_PROCESSOR"),
  ("account_statement_bank", "BANK_STATEMENT_PROCESSOR"),
  ("account_statement_investment_and_retirement", "RETIREMENT_INVESTMENT_STATEMENT_PROCESSOR"),
  ("dhs_flood_certification", "FORM_FLOOD_CERTIFICATE_PROCESSOR"),
  ("f11_12956_2017", "FORM_F11_12956_PROCESSOR"),
  ("hud_54114", "FORM_HUD54114_PROCESSOR"),
  ("hud_92051", "FORM_HUD92051_PROCESSOR"),
  ("hud_92541", "FORM_HUD92541_PROCESSOR"),
  ("hud_92544", "FORM_HUD92544_PROCESSOR"),
  ("hud_92800", "FORM_HUD92800_PROCESSOR"),
  ("hud_92900a", "FORM_HUD92900A_PROCESSOR"),
  ("hud_92900b", "FORM_HUD92900B_PROCESSOR"),
  ("hud_92900lt", "FORM_HUD92900LT_PROCESSOR"),
  ("hud_92900ws", "FORM_HUD92900WS_PROCESSOR"),
  ("mortgage_statements", "MORTGAGE_STATEMENT_PROCESSOR"),
  ("payslip", "PAYSTUB_PROCESSOR"),
  ("property_insurance", "PROPERTY_INSURANCE_PROCESSOR"),
  ("pud_rider", "FORM_PUD_RIDER_PROCESSOR"),
  ("revocable_trust_rider", "FORM_REVOCABLE_TRUST_RIDER_PROCESSOR"),
  ("ssa_89", "FORM_SSA89_PROCESSOR"),
  ("ssa_89_2018", "FORM_SSA89_PROCESSOR"),
  ("ssa_89_2019", "FORM_SSA89_PROCESSOR"),
  ("ssa_89_2020", "FORM_SSA89_PROCESSOR"),
  ("ssa_89_2021", "FORM_SSA89_PROCESSOR"),
  ("ucc_financing_statement", "FORM_UCC1_PROCESSOR"),
  ("usda_ad_3030", "FORM_USDA_CONDITIONAL_COMMITMENT_PROCESSOR"),
  ("vba_26_0551_2004", "FORM_VBA26_0551_PROCESSOR"),
  ("vba_26_8923_2021", "FORM_VBA26_8923_PROCESSOR"),
  ("w2", "FORM_W2_PROCESSOR"),
  ("w2_2018", "FORM_W2_PROCESSOR"),
  ("w2_2019", "FORM_W2_PROCESSOR"),
  ("w2_2020", "FORM_W2_PROCESSOR"),
  ("w2_2021", "FORM_W2_PROCESSOR"),
  ("w9", "FORM_W9_PROCESSOR"),
  ("w9_2017", "FORM_W9_PROCESSOR"),
  ("w9_2018", "FORM_W9_PROCESSOR"),
  ("w9_2019", "FORM_W9_PROCESSOR"),
  ("w9_2020", "FORM_W9_PROCESSOR"),
  ("w9_2021", "FORM_W9_PROCESSOR"),
  ("us_driver_license", "US_DRIVER_LICENSE_PROCESSOR"),
  ("us_passport", "US_PASSPORT_PROCESSOR")]

/-- Shallow embedding of `document_type_to_processor_type`:
`document_map.get(document_type, None)`. -/
def document_type_to_processor_type (document_type : String) : Option String :=
  document_map.lookup document_type


/-- Example configuration used by the concrete witnesses: the default
maximum of 50 files, a 1 GiB size limit and two allowed MIME types. -/
def exConstants : Constants :=
  { BATCH_MAX_FILES := 50
    BATCH_MAX_FILE_SIZE := 1073741824
    VALID_MIME_TYPES := ["application/pdf", "image/png"] }

/-- Eligible 100-byte PDF object. -/
def blobAPdf : Blob :=
  { name := "a.pdf", content_type := "application/pdf", size := 100 }

/-- Directory placeholder object (name ends in a path separator). -/
def blobDir : Blob :=
  { name := "dir/", content_type := "application/pdf", size := 0 }

/-- Object with a MIME type outside the allowed set. -/
def blobBTxt : Blob :=
  { name := "b.txt", content_type := "text/plain", size := 100 }

/-- PDF object exceeding the size limit. -/
def blobCPdf : Blob :=
  { name := "c.pdf", content_type := "application/pdf", size := 2000000000 }

/-- Second eligible 100-byte PDF object. -/
def blobDPdf : Blob :=
  { name := "d.pdf", content_type := "application/pdf", size := 100 }

/-- The mixed five-object listing of the spec scenario. -/
def scenarioListing : String → String → BlobListing Unit := fun _ _ =>
  { blobs := [blobAPdf, blobDir, blobBTxt, blobCPdf, blobDPdf]
    failure := none }

/-- A listing with a single eligible object. -/
def singleListing : String → String → BlobListing Unit := fun _ _ =>
  { blobs := [blobAPdf], failure := none }

/-- The 101-eligible-objects listing of the spec scenario. -/
def manyListing : String → String → BlobListing Unit := fun _ _ =>
  { blobs := List.replicate 101 blobAPdf, failure := none }

/-- A listing whose iterator fails (with error code 7) after yielding one
blob. -/
def failingListing : String → String → BlobListing Nat := fun _ _ =>
  { blobs := [blobAPdf], failure := some 7 }

/-- Ceiling division, the spec's `ceil(N / batch_size)` rendered over
naturals. -/
def ceilDiv (n batch_size : Nat) : Nat :=
  (n + batch_size - 1) / batch_size



theorem step_eq (c : Constants) (gcs_bucket_name : String) (batch_size : Nat)
    (st : List BatchDocumentsInputConfig × List GcsDocument) (blob : Blob) :
    step c gcs_bucket_name batch_size st blob =
      if eligible c blob = true then
        chunkStep batch_size st (mkGcsDocument gcs_bucket_name blob)
      else st := by
  by_cases h1 : endsWithSlash blob.name = true
  · simp [step, eligible, h1]
  · by_cases h2 : blob.content_type ∈ c.VALID_MIME_TYPES
    · by_cases h3 : c.BATCH_MAX_FILE_SIZE < blob.size
      · simp [step, eligible, chunkStep, h1, h2, h3]
      · simp [step, eligible, chunkStep, h1, h2, h3, Nat.not_lt.mp h3]
    · simp [step, eligible, h1, h2]

theorem foldl_step_eq (c : Constants) (gcs_bucket_name : String)
    (batch_size : Nat) (blobs : List Blob) :
    ∀ st, blobs.foldl (step c gcs_bucket_name batch_size) st =
      ((blobs.filter (eligible c)).map (mkGcsDocument gcs_bucket_name)).foldl
        (chunkStep batch_size) st := by
  induction blobs with
  | nil => intro st; rfl
  | cons b bl ih =>
    intro st
    rw [List.foldl_cons, step_eq]
    by_cases h : eligible c b = true
    · simp only [h, if_true, List.filter_cons, List.map_cons, List.foldl_cons, ih]
    · simp only [h, if_false, List.filter_cons, ih]
      simp [h]

theorem foldl_chunkStep_eq (batch_size : Nat) (ds : List GcsDocument) :
    ∀ (B : List BatchDocumentsInputConfig) (cur : List GcsDocument),
      ds.foldl (chunkStep batch_size) (B, cur) =
        (B ++ ((chunkAcc batch_size cur ds).1).map sealBatch,
         (chunkAcc batch_size cur ds).2) := by
  induction ds with
  | nil => intro B cur; simp [chunkAcc]
  | cons d ds ih =>
    intro B cur
    cases h : cur.length == batch_size
    · simp only [List.foldl_cons, chunkStep, h, chunkAcc]
      simp only [Bool.false_eq_true, if_false]
      exact ih B (cur ++ [d])
    · simp only [List.foldl_cons, chunkStep, h, chunkAcc, if_true]
      rw [ih]
      simp [List.append_assoc]

theorem chunkAcc_flatten {α : Type} (batch_size : Nat) (l : List α) :
    ∀ cur, ((chunkAcc batch_size cur l).1).flatten ++ (chunkAcc batch_size cur l).2 =
      cur ++ l := by
  induction l with
  | nil => intro cur; simp [chunkAcc]
  | cons x xs ih =>
    intro cur
    cases h : cur.length == batch_size
    · simp only [chunkAcc, h, Bool.false_eq_true, if_false]
      rw [ih]
      simp
    · simp only [chunkAcc, h, if_true]
      simp only [List.flatten_cons, List.append_assoc]
      rw [ih]
      simp

theorem chunkAcc_chunk_length {α : Type} (batch_size : Nat) (l : List α) :
    ∀ cur ch, ch ∈ (chunkAcc batch_size cur l).1 → ch.length = batch_size := by
  induction l with
  | nil => intro cur ch h; simp [chunkAcc] at h
  | cons x xs ih =>
    intro cur ch h
    cases hb : cur.length == batch_size
    · rw [chunkAcc] at h
      simp only [hb, Bool.false_eq_true, if_false] at h
      exact ih _ _ h
    · rw [chunkAcc] at h
      simp only [hb, if_true] at h
      rcases List.mem_cons.mp h with rfl | h
      · exact eq_of_beq hb
      · exact ih _ _ h

theorem chunkAcc_last_ne_nil {α : Type} (batch_size : Nat) (l : List α) :
    ∀ cur, (cur ≠ [] ∨ l ≠ []) → (chunkAcc batch_size cur l).2 ≠ [] := by
  induction l with
  | nil =>
    intro cur h
    rcases h with h | h
    · simpa [chunkAcc] using h
    · simp at h
  | cons x xs ih =>
    intro cur _
    cases hb : cur.length == batch_size
    · rw [chunkAcc]
      simp only [hb, Bool.false_eq_true, if_false]
      exact ih _ (Or.inl (by simp))
    · rw [chunkAcc]
      simp only [hb, if_true]
      exact ih _ (Or.inl (by simp))

theorem chunkAcc_last_le {α : Type} (batch_size : Nat) (hbs : 0 < batch_size)
    (l : List α) :
    ∀ cur : List α, cur.length ≤ batch_size →
      (chunkAcc batch_size cur l).2.length ≤ batch_size := by
  induction l with
  | nil => intro cur h; simpa [chunkAcc] using h
  | cons x xs ih =>
    intro cur h
    cases hb : cur.length == batch_size
    · have hne : cur.length ≠ batch_size := ne_of_beq_false hb
      have hlt : cur.length < batch_size := Nat.lt_of_le_of_ne h hne
      rw [chunkAcc]
      simp only [hb, Bool.false_eq_true, if_false]
      exact ih _ (by simp [Nat.succ_le_of_lt hlt])
    · rw [chunkAcc]
      simp only [hb, if_true]
      exact ih _ (by simpa using hbs)

theorem processBlobs_eq (c : Constants) (gcs_bucket_name : String)
    (batch_size : Nat) (blobs : List Blob) :
    processBlobs c gcs_bucket_name batch_size blobs =
      ((chunkAcc batch_size ([] : List GcsDocument)
          ((blobs.filter (eligible c)).map (mkGcsDocument gcs_bucket_name))).1).map
          sealBatch ++
        (if (chunkAcc batch_size ([] : List GcsDocument)
            ((blobs.filter (eligible c)).map (mkGcsDocument gcs_bucket_name))).2 = []
         then []
         else [sealBatch (chunkAcc batch_size ([] : List GcsDocument)
            ((blobs.filter (eligible c)).map (mkGcsDocument gcs_bucket_name))).2]) := by
  unfold processBlobs
  rw [foldl_step_eq, foldl_chunkStep_eq]
  unfold finalizeBatches
  by_cases h : (chunkAcc batch_size ([] : List GcsDocument)
      ((blobs.filter (eligible c)).map (mkGcsDocument gcs_bucket_name))).2 = []
  · simp [h]
  · simp [h]

theorem create_batches_ok {ε : Type} (c : Constants)
    (list_blobs : String → String → BlobListing ε)
    (gcs_bucket_name gcs_path : String) (batch_size : Nat)
    (hsize : batch_size ≤ c.BATCH_MAX_FILES)
    (hfail : (list_blobs gcs_bucket_name gcs_path).failure = none) :
    create_batches c list_blobs gcs_bucket_name gcs_path batch_size =
      (Except.ok (processBlobs c gcs_bucket_name batch_size
        (list_blobs gcs_bucket_name gcs_path).blobs),
       [(gcs_bucket_name, gcs_path)]) := by
  unfold create_batches
  rw [if_neg (Nat.not_lt.mpr hsize)]
  simp [hfail, processBlobs]

theorem sealBatch_documents (batch : List GcsDocument) :
    (sealBatch batch).gcs_documents.documents = batch := rfl

theorem map_documents_map_sealBatch (l : List (List GcsDocument)) :
    (l.map sealBatch).map (fun b => b.gcs_documents.documents) = l := by
  induction l with
  | nil => rfl
  | cons x xs ih => simp [sealBatch, ih]

theorem processBlobs_flatten (c : Constants) (gcs_bucket_name : String)
    (batch_size : Nat) (blobs : List Blob) :
    (((processBlobs c gcs_bucket_name batch_size blobs).map
        (fun b => b.gcs_documents.documents)).flatten) =
      (blobs.filter (eligible c)).map (mkGcsDocument gcs_bucket_name) := by
  have hflat := chunkAcc_flatten batch_size
    ((blobs.filter (eligible c)).map (mkGcsDocument gcs_bucket_name))
    ([] : List GcsDocument)
  rw [List.nil_append] at hflat
  rw [processBlobs_eq]
  by_cases h : (chunkAcc batch_size ([] : List GcsDocument)
      ((blobs.filter (eligible c)).map (mkGcsDocument gcs_bucket_name))).2 = []
  · rw [h, List.append_nil] at hflat
    rw [if_pos h, List.append_nil, map_documents_map_sealBatch, hflat]
  · rw [if_neg h, List.map_append, map_documents_map_sealBatch,
      List.flatten_append, List.map_cons, List.map_nil, List.flatten_cons,
      List.flatten_nil, List.append_nil, sealBatch_documents]
    exact hflat

theorem ceilDiv_eq (batch_size n : Nat) (hbs : 0 < batch_size) :
    ceilDiv n batch_size =
      n / batch_size + (if n % batch_size = 0 then 0 else 1) := by
  have hdm := Nat.div_add_mod n batch_size
  have hrbs : n % batch_size < batch_size := Nat.mod_lt _ hbs
  unfold ceilDiv
  generalize hq : n / batch_size = q at *
  generalize hr : n % batch_size = r at *
  rcases eq_or_ne r 0 with h0 | h0
  · subst h0
    have h1 : n + batch_size - 1 = batch_size * q + (batch_size - 1) := by omega
    rw [h1, Nat.mul_add_div hbs, Nat.div_eq_of_lt (by omega)]
    simp
  · have hexp : batch_size * (q + 1) = batch_size * q + batch_size := by ring
    have h1 : n + batch_size - 1 = batch_size * (q + 1) + (r - 1) := by omega
    rw [h1, Nat.mul_add_div hbs, Nat.div_eq_of_lt (by omega), if_neg h0]

theorem chunk_lengths {α : Type} [DecidableEq α] (batch_size : Nat)
    (hbs : 0 < batch_size) (ds : List α) :
    ((chunkAcc batch_size ([] : List α) ds).1).map List.length ++
        (if (chunkAcc batch_size ([] : List α) ds).2 = [] then []
         else [(chunkAcc batch_size ([] : List α) ds).2.length]) =
      List.replicate (ds.length / batch_size) batch_size ++
        (if ds.length % batch_size = 0 then []
         else [ds.length % batch_size]) := by
  rcases eq_or_ne ds [] with rfl | hne
  · simp [chunkAcc]
  · have h2 : (chunkAcc batch_size ([] : List α) ds).2 ≠ [] :=
      chunkAcc_last_ne_nil batch_size ds [] (Or.inr hne)
    have hr1 : 1 ≤ (chunkAcc batch_size ([] : List α) ds).2.length :=
      List.length_pos.mpr h2
    have hrbs : (chunkAcc batch_size ([] : List α) ds).2.length ≤ batch_size :=
      chunkAcc_last_le batch_size hbs ds [] (by simp)
    have hmap : ((chunkAcc batch_size ([] : List α) ds).1).map List.length =
        List.replicate (chunkAcc batch_size ([] : List α) ds).1.length batch_size := by
      have hall : ∀ x ∈ ((chunkAcc batch_size ([] : List α) ds).1).map List.length,
          x = batch_size := by
        intro x hx
        rcases List.mem_map.mp hx with ⟨ch, hch, rfl⟩
        exact chunkAcc_chunk_length batch_size ds [] ch hch
      have := List.eq_replicate_of_mem hall
      simpa [List.length_map] using this
    have hN : ds.length =
        (chunkAcc batch_size ([] : List α) ds).1.length * batch_size +
          (chunkAcc batch_size ([] : List α) ds).2.length := by
      have hflat := chunkAcc_flatten batch_size ds ([] : List α)
      rw [List.nil_append] at hflat
      have hlen := congrArg List.length hflat
      rw [List.length_append, List.length_flatten, hmap, List.sum_replicate,
        smul_eq_mul] at hlen
      omega
    rw [hmap, if_neg h2]
    rcases eq_or_lt_of_le hrbs with heq | hlt
    · have hdiv : ds.length / batch_size =
          (chunkAcc batch_size ([] : List α) ds).1.length + 1 := by
        rw [hN, heq]
        have hx : ((chunkAcc batch_size ([] : List α) ds).1.length + 1) * batch_size =
            (chunkAcc batch_size ([] : List α) ds).1.length * batch_size +
              batch_size := by ring
        rw [← hx, Nat.mul_div_cancel _ hbs]
      have hmod : ds.length % batch_size = 0 := by
        rw [hN, heq]
        have hx : (chunkAcc batch_size ([] : List α) ds).1.length * batch_size +
            batch_size = ((chunkAcc batch_size ([] : List α) ds).1.length + 1) *
              batch_size := by ring
        rw [hx, Nat.mul_mod_left]
      rw [hdiv, hmod, if_pos rfl, List.replicate_succ', List.append_nil, heq]
    · have hdiv : ds.length / batch_size =
          (chunkAcc batch_size ([] : List α) ds).1.length := by
        conv_lhs => rw [hN, Nat.mul_comm]
        rw [Nat.mul_add_div hbs, Nat.div_eq_of_lt hlt]
        omega
      have hmod : ds.length % batch_size =
          (chunkAcc batch_size ([] : List α) ds).2.length := by
        conv_lhs => rw [hN, Nat.mul_comm]
        rw [Nat.mul_add_mod]
        exact Nat.mod_eq_of_lt hlt
      rw [hdiv, hmod, if_neg (by omega)]

theorem map_len_map_sealBatch (l : List (List GcsDocument)) :
    (l.map sealBatch).map (fun b => b.gcs_documents.documents.length) =
      l.map List.length := by
  induction l with
  | nil => rfl
  | cons x xs ih => simp [sealBatch, ih]

theorem processBlobs_lengths (c : Constants) (gcs_bucket_name : String)
    (batch_size : Nat) (hbs : 0 < batch_size) (blobs : List Blob) :
    (processBlobs c gcs_bucket_name batch_size blobs).map
        (fun b => b.gcs_documents.documents.length) =
      List.replicate (((blobs.filter (eligible c)).length) / batch_size)
          batch_size ++
        (if ((blobs.filter (eligible c)).length) % batch_size = 0 then []
         else [((blobs.filter (eligible c)).length) % batch_size]) := by
  have hc := chunk_lengths batch_size hbs
    ((blobs.filter (eligible c)).map (mkGcsDocument gcs_bucket_name))
  rw [List.length_map] at hc
  rw [processBlobs_eq, List.map_append, map_len_map_sealBatch]
  by_cases h : (chunkAcc batch_size ([] : List GcsDocument)
      ((blobs.filter (eligible c)).map (mkGcsDocument gcs_bucket_name))).2 = []
  · rw [if_pos h] at hc
    rw [if_pos h]
    simpa using hc
  · rw [if_neg h] at hc
    rw [if_neg h]
    simpa [sealBatch] using hc

theorem processBlobs_dropLast_length (c : Constants) (gcs_bucket_name : String)
    (batch_size : Nat) (blobs : List Blob) :
    ∀ cfg ∈ (processBlobs c gcs_bucket_name batch_size blobs).dropLast,
      cfg.gcs_documents.documents.length = batch_size := by
  rw [processBlobs_eq]
  by_cases h : (chunkAcc batch_size ([] : List GcsDocument)
      ((blobs.filter (eligible c)).map (mkGcsDocument gcs_bucket_name))).2 = []
  · rw [if_pos h, List.append_nil]
    intro cfg hcfg
    have hcfg2 := (List.dropLast_sublist _).subset hcfg
    rcases List.mem_map.mp hcfg2 with ⟨ch, hch, rfl⟩
    rw [sealBatch_documents]
    exact chunkAcc_chunk_length batch_size _ _ ch hch
  · rw [if_neg h, List.dropLast_concat]
    intro cfg hcfg
    rcases List.mem_map.mp hcfg with ⟨ch, hch, rfl⟩
    rw [sealBatch_documents]
    exact chunkAcc_chunk_length batch_size _ _ ch hch

theorem processBlobs_mem_length (c : Constants) (gcs_bucket_name : String)
    (batch_size : Nat) (hbs : 0 < batch_size) (blobs : List Blob) :
    ∀ cfg ∈ processBlobs c gcs_bucket_name batch_size blobs,
      1 ≤ cfg.gcs_documents.documents.length ∧
        cfg.gcs_documents.documents.length ≤ batch_size := by
  rw [processBlobs_eq]
  intro cfg hcfg
  rcases List.mem_append.mp hcfg with hmem | hmem
  · rcases List.mem_map.mp hmem with ⟨ch, hch, rfl⟩
    have hlen := chunkAcc_chunk_length batch_size _ _ ch hch
    rw [sealBatch_documents, hlen]
    exact ⟨hbs, le_refl _⟩
  · by_cases h : (chunkAcc batch_size ([] : List GcsDocument)
        ((blobs.filter (eligible c)).map (mkGcsDocument gcs_bucket_name))).2 = []
    · rw [if_pos h] at hmem
      simp at hmem
    · rw [if_neg h] at hmem
      have := List.mem_singleton.mp hmem
      subst this
      rw [sealBatch_documents]
      constructor
      · have := List.length_pos.mpr h
        omega
      · exact chunkAcc_last_le batch_size hbs _ _ (by simp)

theorem lookup_mem_of_eq_some :
    ∀ (l : List (String × String)) (k v : String),
      l.lookup k = some v → (k, v) ∈ l := by
  intro l
  induction l with
  | nil => intro k v h; simp [List.lookup] at h
  | cons a l ih =>
    intro k v h
    rw [List.lookup] at h
    cases hb : k == a.1
    · simp only [hb] at h
      exact List.mem_cons_of_mem _ (ih _ _ h)
    · simp only [hb] at h
      obtain rfl : a.2 = v := Option.some.inj h
      have hk : k = a.1 := eq_of_beq hb
      subst hk
      simp

theorem lookup_eq_none_of_keys_not_contains :
    ∀ (l : List (String × String)) (k : String),
      (l.map Prod.fst).contains k = false → l.lookup k = none := by
  intro l
  induction l with
  | nil => intro k h; rfl
  | cons a l ih =>
    intro k h
    rw [List.map_cons, List.contains_cons] at h
    have h1 : (k == a.1) = false := by
      cases hb : k == a.1
      · rfl
      · rw [hb] at h; simp at h
    have h2 : (l.map Prod.fst).contains k = false := by
      cases hc : (l.map Prod.fst).contains k
      · rfl
      · rw [hc] at h; simp at h
    rw [List.lookup, h1]
    exact ih _ h2

/-- C1 counterexample: `batch_size = 0` satisfies the claim's precondition
`batch_size ≤ BATCH_MAX_FILES`, yet a listing with exactly one eligible
object makes `create_batches` return two descriptors (the first of them
empty), not `ceil(1 / 0) = 0` descriptors as the claim, read over the
naturals, demands. -/
theorem create_batches_count_cex :
    0 ≤ exConstants.BATCH_MAX_FILES ∧
    ((singleListing "bkt" "docs").blobs.filter (eligible exConstants)).length = 1 ∧
    (create_batches exConstants singleListing "bkt" "docs" 0).1 =
      Except.ok [sealBatch [], sealBatch [mkGcsDocument "bkt" blobAPdf]] ∧
    [sealBatch [], sealBatch [mkGcsDocument "bkt" blobAPdf]].length ≠ ceilDiv 1 0 :=
  ⟨Nat.zero_le _, rfl, rfl, by decide⟩

/-- C1 (amended with `1 ≤ batch_size`): for every configuration, bucket,
non-failing listing and `batch_size` with `1 ≤ batch_size ≤ BATCH_MAX_FILES`,
`create_batches` returns descriptors of sizes
`batch_size, …, batch_size, N mod batch_size` (the last being `batch_size`
when the remainder is zero), hence `ceil(N / batch_size)` descriptors, and
none when `N = 0`, where `N` is the number of eligible listed objects. -/
theorem create_batches_count {ε : Type} (c : Constants)
    (list_blobs : String → String → BlobListing ε)
    (gcs_bucket_name gcs_path : String) (batch_size : Nat)
    (hpos : 1 ≤ batch_size) (hsize : batch_size ≤ c.BATCH_MAX_FILES)
    (hfail : (list_blobs gcs_bucket_name gcs_path).failure = none) :
    ∃ out,
      (create_batches c list_blobs gcs_bucket_name gcs_path batch_size).1 =
        Except.ok out ∧
      out.map (fun b => b.gcs_documents.documents.length) =
        (List.replicate
          ((((list_blobs gcs_bucket_name gcs_path).blobs.filter
              (eligible c)).length) / batch_size) batch_size ++
         (if (((list_blobs gcs_bucket_name gcs_path).blobs.filter
              (eligible c)).length) % batch_size = 0 then []
          else [(((list_blobs gcs_bucket_name gcs_path).blobs.filter
              (eligible c)).length) % batch_size])) ∧
      out.length =
        ceilDiv (((list_blobs gcs_bucket_name gcs_path).blobs.filter
          (eligible c)).length) batch_size ∧
      ((((list_blobs gcs_bucket_name gcs_path).blobs.filter
          (eligible c)).length) = 0 → out = []) := by
  refine ⟨processBlobs c gcs_bucket_name batch_size
      (list_blobs gcs_bucket_name gcs_path).blobs, ?_, ?_, ?_, ?_⟩
  · rw [create_batches_ok c list_blobs gcs_bucket_name gcs_path batch_size
      hsize hfail]
  · exact processBlobs_lengths c gcs_bucket_name batch_size (by omega) _
  · have hlen := congrArg List.length
      (processBlobs_lengths c gcs_bucket_name batch_size (by omega)
        (list_blobs gcs_bucket_name gcs_path).blobs)
    rw [List.length_map] at hlen
    rw [hlen, List.length_append, List.length_replicate,
      ceilDiv_eq batch_size _ (by omega)]
    by_cases h0 : (((list_blobs gcs_bucket_name gcs_path).blobs.filter
        (eligible c)).length) % batch_size = 0
    · rw [if_pos h0, if_pos h0]
      simp
    · rw [if_neg h0, if_neg h0]
      simp
  · intro h0
    have hm := processBlobs_lengths c gcs_bucket_name batch_size (by omega)
      (list_blobs gcs_bucket_name gcs_path).blobs
    rw [h0] at hm
    simp at hm
    exact hm

/-- C1 witness: 101 eligible objects with `batch_size = 50` (the 101-object
scenario of the spec). -/
theorem create_batches_count_witness :
    (1 ≤ 50 ∧ 50 ≤ exConstants.BATCH_MAX_FILES ∧
      (manyListing "bkt" "docs").failure = none) ∧
    (∃ out,
      (create_batches exConstants manyListing "bkt" "docs" 50).1 =
        Except.ok out ∧
      out.map (fun b => b.gcs_documents.documents.length) =
        (List.replicate
          ((((manyListing "bkt" "docs").blobs.filter
              (eligible exConstants)).length) / 50) 50 ++
         (if (((manyListing "bkt" "docs").blobs.filter
              (eligible exConstants)).length) % 50 = 0 then []
          else [(((manyListing "bkt" "docs").blobs.filter
              (eligible exConstants)).length) % 50])) ∧
      out.length =
        ceilDiv (((manyListing "bkt" "docs").blobs.filter
          (eligible exConstants)).length) 50 ∧
      ((((manyListing "bkt" "docs").blobs.filter
          (eligible exConstants)).length) = 0 → out = [])) :=
  ⟨⟨by decide, by decide, rfl⟩,
   create_batches_count exConstants manyListing "bkt" "docs" 50
     (by decide) (by decide) rfl⟩

/-- C2 counterexample: with `batch_size = 0`, which satisfies the stated
precondition `batch_size ≤ BATCH_MAX_FILES`, one eligible object produces
the descriptors `[[], [doc]]`; the first descriptor is empty, although the
claim says no emitted descriptor is ever empty. -/
theorem create_batches_no_empty_cex :
    0 ≤ exConstants.BATCH_MAX_FILES ∧
    (create_batches exConstants singleListing "bkt" "docs" 0).1 =
      Except.ok [sealBatch [], sealBatch [mkGcsDocument "bkt" blobAPdf]] ∧
    ¬ (∀ out,
        (create_batches exConstants singleListing "bkt" "docs" 0).1 =
          Except.ok out →
        ∀ cfg ∈ out, cfg.gcs_documents.documents ≠ []) :=
  ⟨Nat.zero_le _, rfl,
   fun h => (h _ rfl (sealBatch []) (List.mem_cons_self _ _)) rfl⟩

/-- C2 (amended with `1 ≤ batch_size`): under the validated precondition
and a positive batch size, every emitted descriptor except possibly the
last holds exactly `batch_size` documents, every descriptor holds between
1 and `batch_size` documents, and none is empty. -/
theorem create_batches_batch_bounds {ε : Type} (c : Constants)
    (list_blobs : String → String → BlobListing ε)
    (gcs_bucket_name gcs_path : String) (batch_size : Nat)
    (hpos : 1 ≤ batch_size) (hsize : batch_size ≤ c.BATCH_MAX_FILES)
    (hfail : (list_blobs gcs_bucket_name gcs_path).failure = none) :
    ∃ out,
      (create_batches c list_blobs gcs_bucket_name gcs_path batch_size).1 =
        Except.ok out ∧
      (∀ cfg ∈ out.dropLast, cfg.gcs_documents.documents.length = batch_size) ∧
      ∀ cfg ∈ out, 1 ≤ cfg.gcs_documents.documents.length ∧
        cfg.gcs_documents.documents.length ≤ batch_size := by
  refine ⟨processBlobs c gcs_bucket_name batch_size
      (list_blobs gcs_bucket_name gcs_path).blobs, ?_, ?_, ?_⟩
  · rw [create_batches_ok c list_blobs gcs_bucket_name gcs_path batch_size
      hsize hfail]
  · exact processBlobs_dropLast_length c gcs_bucket_name batch_size _
  · exact processBlobs_mem_length c gcs_bucket_name batch_size (by omega) _

/-- C2 witness: the five-object scenario with `batch_size = 2`. -/
theorem create_batches_batch_bounds_witness :
    (1 ≤ 2 ∧ 2 ≤ exConstants.BATCH_MAX_FILES ∧
      (scenarioListing "bkt" "docs").failure = none) ∧
    (∃ out,
      (create_batches exConstants scenarioListing "bkt" "docs" 2).1 =
        Except.ok out ∧
      (∀ cfg ∈ out.dropLast, cfg.gcs_documents.documents.length = 2) ∧
      ∀ cfg ∈ out, 1 ≤ cfg.gcs_documents.documents.length ∧
        cfg.gcs_documents.documents.length ≤ 2) :=
  ⟨⟨by decide, by decide, rfl⟩,
   create_batches_batch_bounds exConstants scenarioListing "bkt" "docs" 2
     (by decide) (by decide) rfl⟩

/-- C3: whenever `batch_size` strictly exceeds `BATCH_MAX_FILES`,
`create_batches` returns the `ValueError` of the validation immediately;
its listing-call trace is empty (no storage call is issued) and no partial
output is produced. -/
theorem create_batches_oversize_rejected {ε : Type} (c : Constants)
    (list_blobs : String → String → BlobListing ε)
    (gcs_bucket_name gcs_path : String) (batch_size : Nat)
    (hgt : batch_size > c.BATCH_MAX_FILES) :
    create_batches c list_blobs gcs_bucket_name gcs_path batch_size =
      (Except.error (BatchError.valueError (batchSizeErrorMsg c batch_size)),
       []) := by
  unfold create_batches
  rw [if_pos hgt]

/-- C3 witness: `batch_size = 51` against the maximum of 50. -/
theorem create_batches_oversize_rejected_witness :
    51 > exConstants.BATCH_MAX_FILES ∧
    create_batches exConstants scenarioListing "bkt" "docs" 51 =
      (Except.error (BatchError.valueError (batchSizeErrorMsg exConstants 51)),
       []) :=
  ⟨by decide,
   create_batches_oversize_rejected exConstants scenarioListing "bkt" "docs" 51
     (by decide)⟩

/-- C4: for every valid call, every document inside every emitted
descriptor is the image of an eligible listed object — one that is not a
directory placeholder, has an allowed MIME type and is within the size
limit; objects failing any filter contribute to no descriptor, wherever
they occur in the listing. -/
theorem create_batches_only_eligible {ε : Type} (c : Constants)
    (list_blobs : String → String → BlobListing ε)
    (gcs_bucket_name gcs_path : String) (batch_size : Nat)
    (hsize : batch_size ≤ c.BATCH_MAX_FILES)
    (hfail : (list_blobs gcs_bucket_name gcs_path).failure = none) :
    ∃ out,
      (create_batches c list_blobs gcs_bucket_name gcs_path batch_size).1 =
        Except.ok out ∧
      ∀ cfg ∈ out, ∀ d ∈ cfg.gcs_documents.documents,
        ∃ blob ∈ (list_blobs gcs_bucket_name gcs_path).blobs,
          eligible c blob = true ∧ d = mkGcsDocument gcs_bucket_name blob := by
  refine ⟨processBlobs c gcs_bucket_name batch_size
      (list_blobs gcs_bucket_name gcs_path).blobs, ?_, ?_⟩
  · rw [create_batches_ok c list_blobs gcs_bucket_name gcs_path batch_size
      hsize hfail]
  · intro cfg hcfg d hd
    have hmem : d ∈ ((processBlobs c gcs_bucket_name batch_size
        (list_blobs gcs_bucket_name gcs_path).blobs).map
          (fun b => b.gcs_documents.documents)).flatten :=
      List.mem_flatten.mpr
        ⟨cfg.gcs_documents.documents, List.mem_map_of_mem _ hcfg, hd⟩
    rw [processBlobs_flatten] at hmem
    rcases List.mem_map.mp hmem with ⟨blob, hblob, rfl⟩
    rcases List.mem_filter.mp hblob with ⟨hmem2, helig⟩
    exact ⟨blob, hmem2, helig, rfl⟩

/-- C4 witness: the spec scenario (valid, placeholder, bad MIME, oversized,
valid) with `batch_size = 2`. -/
theorem create_batches_only_eligible_witness :
    (2 ≤ exConstants.BATCH_MAX_FILES ∧
      (scenarioListing "bkt" "docs").failure = none) ∧
    (∃ out,
      (create_batches exConstants scenarioListing "bkt" "docs" 2).1 =
        Except.ok out ∧
      ∀ cfg ∈ out, ∀ d ∈ cfg.gcs_documents.documents,
        ∃ blob ∈ (scenarioListing "bkt" "docs").blobs,
          eligible exConstants blob = true ∧
          d = mkGcsDocument "bkt" blob) :=
  ⟨⟨by decide, rfl⟩,
   create_batches_only_eligible exConstants scenarioListing "bkt" "docs" 2
     (by decide) rfl⟩

/-- C5: for every valid call, the concatenation of the emitted descriptors
is exactly the accepted objects' documents in listing order, and every
descriptor except possibly the last holds exactly `batch_size` documents
(the batch boundary falls after every `batch_size`-th accepted object). -/
theorem create_batches_order_preserved {ε : Type} (c : Constants)
    (list_blobs : String → String → BlobListing ε)
    (gcs_bucket_name gcs_path : String) (batch_size : Nat)
    (hsize : batch_size ≤ c.BATCH_MAX_FILES)
    (hfail : (list_blobs gcs_bucket_name gcs_path).failure = none) :
    ∃ out,
      (create_batches c list_blobs gcs_bucket_name gcs_path batch_size).1 =
        Except.ok out ∧
      (out.map (fun b => b.gcs_documents.documents)).flatten =
        ((list_blobs gcs_bucket_name gcs_path).blobs.filter
          (eligible c)).map (mkGcsDocument gcs_bucket_name) ∧
      ∀ cfg ∈ out.dropLast, cfg.gcs_documents.documents.length = batch_size :=
  ⟨processBlobs c gcs_bucket_name batch_size
      (list_blobs gcs_bucket_name gcs_path).blobs,
   by rw [create_batches_ok c list_blobs gcs_bucket_name gcs_path batch_size
       hsize hfail],
   processBlobs_flatten c gcs_bucket_name batch_size _,
   processBlobs_dropLast_length c gcs_bucket_name batch_size _⟩

/-- C5 witness: the five-object scenario with `batch_size = 2`. -/
theorem create_batches_order_preserved_witness :
    (2 ≤ exConstants.BATCH_MAX_FILES ∧
      (scenarioListing "bkt" "docs").failure = none) ∧
    (∃ out,
      (create_batches exConstants scenarioListing "bkt" "docs" 2).1 =
        Except.ok out ∧
      (out.map (fun b => b.gcs_documents.documents)).flatten =
        ((scenarioListing "bkt" "docs").blobs.filter
          (eligible exConstants)).map (mkGcsDocument "bkt") ∧
      ∀ cfg ∈ out.dropLast, cfg.gcs_documents.documents.length = 2) :=
  ⟨⟨by decide, rfl⟩,
   create_batches_order_preserved exConstants scenarioListing "bkt" "docs" 2
     (by decide) rfl⟩

/-- C6: `document_type_to_processor_type` hits only on exact,
case-sensitive keys of the static table (any hit is an entry of the
table), maps "w2" to "FORM_W2_PROCESSOR" and misses on "unknown_type". -/
theorem document_type_lookup_exact :
    document_type_to_processor_type "w2" = some "FORM_W2_PROCESSOR" ∧
    document_type_to_processor_type "unknown_type" = none ∧
    ∀ document_type r : String,
      document_type_to_processor_type document_type = some r →
      (document_type, r) ∈ document_map :=
  ⟨rfl, rfl, fun document_type r h =>
    lookup_mem_of_eq_some document_map document_type r h⟩

/-- C6 witness: the "w2" hit is an exact entry of the table. -/
theorem document_type_lookup_exact_witness :
    ("w2", "FORM_W2_PROCESSOR") ∈ document_map :=
  document_type_lookup_exact.2.2 "w2" "FORM_W2_PROCESSOR" rfl

/-- C7: for every document type absent from the static table's keys, the
lookup returns the absent value (`none`); being a total function into
`Option`, it raises no error on unknown keys. -/
theorem document_type_lookup_miss (document_type : String)
    (h : (document_map.map Prod.fst).contains document_type = false) :
    document_type_to_processor_type document_type = none :=
  lookup_eq_none_of_keys_not_contains document_map document_type h

/-- C7 witness: the unknown key "unknown_type". -/
theorem document_type_lookup_miss_witness :
    (document_map.map Prod.fst).contains "unknown_type" = false ∧
    document_type_to_processor_type "unknown_type" = none :=
  ⟨by decide, document_type_lookup_miss "unknown_type" (by decide)⟩

/-- C8: with a valid `batch_size`, a failure raised by the listing
collaborator while it is consumed propagates out of `create_batches`
carrying the very same error value, not wrapped in `ValueError`; the trace
shows the single listing call, so the listing is not retried, and no
partial output is produced. -/
theorem create_batches_listing_failure_propagates {ε : Type} (c : Constants)
    (list_blobs : String → String → BlobListing ε)
    (gcs_bucket_name gcs_path : String) (batch_size : Nat) (e : ε)
    (hsize : batch_size ≤ c.BATCH_MAX_FILES)
    (hfail : (list_blobs gcs_bucket_name gcs_path).failure = some e) :
    create_batches c list_blobs gcs_bucket_name gcs_path batch_size =
      (Except.error (BatchError.listingFailure e),
       [(gcs_bucket_name, gcs_path)]) := by
  unfold create_batches
  rw [if_neg (Nat.not_lt.mpr hsize)]
  simp [hfail]

/-- C8 witness: a listing failing with error code 7 under `batch_size = 2`. -/
theorem create_batches_listing_failure_propagates_witness :
    (2 ≤ exConstants.BATCH_MAX_FILES ∧
      (failingListing "bkt" "docs").failure = some 7) ∧
    create_batches exConstants failingListing "bkt" "docs" 2 =
      (Except.error (BatchError.listingFailure 7), [("bkt", "docs")]) :=
  ⟨⟨by decide, rfl⟩,
   create_batches_listing_failure_propagates exConstants failingListing
     "bkt" "docs" 2 7 (by decide) rfl⟩

/-- C9: for every valid call, every accepted object yields in some emitted
descriptor a document whose `gcs_uri` is exactly
`"gs://" ++ bucket ++ "/" ++ name` and whose `mime_type` is exactly the
object's `content_type`. -/
theorem create_batches_doc_fields {ε : Type} (c : Constants)
    (list_blobs : String → String → BlobListing ε)
    (gcs_bucket_name gcs_path : String) (batch_size : Nat)
    (hsize : batch_size ≤ c.BATCH_MAX_FILES)
    (hfail : (list_blobs gcs_bucket_name gcs_path).failure = none) :
    ∃ out,
      (create_batches c list_blobs gcs_bucket_name gcs_path batch_size).1 =
        Except.ok out ∧
      ∀ blob ∈ (list_blobs gcs_bucket_name gcs_path).blobs,
        eligible c blob = true →
        ∃ cfg ∈ out, ∃ d ∈ cfg.gcs_documents.documents,
          d.gcs_uri = "gs://" ++ gcs_bucket_name ++ "/" ++ blob.name ∧
          d.mime_type = blob.content_type := by
  refine ⟨processBlobs c gcs_bucket_name batch_size
      (list_blobs gcs_bucket_name gcs_path).blobs, ?_, ?_⟩
  · rw [create_batches_ok c list_blobs gcs_bucket_name gcs_path batch_size
      hsize hfail]
  · intro blob hblob helig
    have hmem : mkGcsDocument gcs_bucket_name blob ∈
        ((list_blobs gcs_bucket_name gcs_path).blobs.filter
          (eligible c)).map (mkGcsDocument gcs_bucket_name) :=
      List.mem_map_of_mem _ (List.mem_filter.mpr ⟨hblob, helig⟩)
    rw [← processBlobs_flatten c gcs_bucket_name batch_size] at hmem
    rcases List.mem_flatten.mp hmem with ⟨docs, hdocs, hd⟩
    rcases List.mem_map.mp hdocs with ⟨cfg, hcfg, rfl⟩
    exact ⟨cfg, hcfg, mkGcsDocument gcs_bucket_name blob, hd, rfl, rfl⟩

/-- C9 witness: the five-object scenario with `batch_size = 2`. -/
theorem create_batches_doc_fields_witness :
    (2 ≤ exConstants.BATCH_MAX_FILES ∧
      (scenarioListing "bkt" "docs").failure = none) ∧
    (∃ out,
      (create_batches exConstants scenarioListing "bkt" "docs" 2).1 =
        Except.ok out ∧
      ∀ blob ∈ (scenarioListing "bkt" "docs").blobs,
        eligible exConstants blob = true →
        ∃ cfg ∈ out, ∃ d ∈ cfg.gcs_documents.documents,
          d.gcs_uri = "gs://" ++ "bkt" ++ "/" ++ blob.name ∧
          d.mime_type = blob.content_type) :=
  ⟨⟨by decide, rfl⟩,
   create_batches_doc_fields exConstants scenarioListing "bkt" "docs" 2
     (by decide) rfl⟩

/-- C10: calling `create_batches` with `batch_size` exactly equal to
`BATCH_MAX_FILES` does not trigger the validation error (the run
succeeds); the validation fires only for strictly greater values — even
though the message of that error says the batch size "must be less than"
the maximum. -/
theorem create_batches_max_boundary {ε : Type} (c : Constants)
    (list_blobs : String → String → BlobListing ε)
    (gcs_bucket_name gcs_path : String)
    (hfail : (list_blobs gcs_bucket_name gcs_path).failure = none) :
    (create_batches c list_blobs gcs_bucket_name gcs_path
        c.BATCH_MAX_FILES).1 =
      Except.ok (processBlobs c gcs_bucket_name c.BATCH_MAX_FILES
        (list_blobs gcs_bucket_name gcs_path).blobs) ∧
    ∀ batch_size, c.BATCH_MAX_FILES < batch_size →
      (create_batches c list_blobs gcs_bucket_name gcs_path batch_size).1 =
        Except.error (BatchError.valueError (batchSizeErrorMsg c batch_size)) := by
  constructor
  · rw [create_batches_ok c list_blobs gcs_bucket_name gcs_path
      c.BATCH_MAX_FILES (le_refl _) hfail]
  · intro batch_size hgt
    unfold create_batches
    rw [if_pos hgt]

/-- C10 witness: `batch_size = 50 = BATCH_MAX_FILES` succeeds on the
five-object scenario. -/
theorem create_batches_max_boundary_witness :
    ((scenarioListing "bkt" "docs").failure = none) ∧
    ((create_batches exConstants scenarioListing "bkt" "docs"
        exConstants.BATCH_MAX_FILES).1 =
      Except.ok (processBlobs exConstants "bkt" exConstants.BATCH_MAX_FILES
        (scenarioListing "bkt" "docs").blobs) ∧
    ∀ batch_size, exConstants.BATCH_MAX_FILES < batch_size →
      (create_batches exConstants scenarioListing "bkt" "docs" batch_size).1 =
        Except.error (BatchError.valueError
          (batchSizeErrorMsg exConstants batch_size))) :=
  ⟨rfl, create_batches_max_boundary exConstants scenarioListing "bkt" "docs" rfl⟩

end DocumentaiToolbox
